import Mathlib

/-!
Shallow embedding of the real-time message router of `src/main.py`
(the SocketIO `handle_message` dispatcher of the Vista Verse backend).

Python strings are modelled as Lean `String` (a sequence of characters,
matching Python code-point semantics), and the string operations used by
the dispatcher (`startswith`, slicing `[5:]`, `strip`) are re-implemented
below on the character list so that their behaviour mirrors Python.

The external collaborators are modelled as oracles:
  * the Gemini model (`model.generate_content`) is a function from the
    prompt to `Option String` (`none` models a raised exception, matching
    the `except` handler in the source);
  * the Mongo collection (`questions_collection.insert_one`) is a flag
    saying whether the insert raises;
  * `datetime.now()` is a number supplied by the environment.

A run of the dispatcher is a trace of events in program order: gateway
calls (with their prompt and result), store appends (with the record and
whether the insert succeeded), and socket emits (payload plus audience:
`room=request.sid` is a sender-only unicast, `broadcast=True,
include_self=True` is a broadcast to everyone including the sender).
-/

namespace Vista

/-- ASCII whitespace recognised by Python `str.strip()`. -/
def pyIsSpace (c : Char) : Bool :=
  c = ' ' || c = '\t' || c = '\n' || c = '\r' || c = '\x0b' || c = '\x0c'

/-- Python `s.startswith(p)`. -/
def pyStartswith (s p : String) : Bool :=
  p.data.isPrefixOf s.data

/-- Python slicing `s[n:]` (by code point). -/
def pySliceFrom (s : String) (n : Nat) : String :=
  ⟨s.data.drop n⟩

/-- Python `s.strip()`: remove leading and trailing whitespace. -/
def pyStrip (s : String) : String :=
  ⟨((s.data.dropWhile pyIsSpace).reverse.dropWhile pyIsSpace).reverse⟩

/-- Audience of a socket emit: `room=request.sid` (the sender only) or
`broadcast=True, include_self=True` (every connected session). -/
inductive Audience
  | toSender
  | toAll
deriving DecidableEq

/-- The document built at lines 70–78 of `src/main.py`. -/
structure QuestionRecord where
  question : String
  answer : String
  title : String
  timestamp : Nat
  likes : Nat
  category : String
  author : String
deriving DecidableEq

/-- The Gemini model handle: `generate_content` returns the answer text,
or `none` when the call (or its `.text` access) raises. -/
structure GenerativeModel where
  generate_content : String → Option String

/-- The Mongo collection handle: whether `insert_one` succeeds. -/
structure Collection where
  insert_succeeds : Bool

/-- Process-level environment of `handle_message`: the (possibly
unconfigured) Gemini model, the (possibly unconnected) questions
collection, and the current time. -/
structure Env where
  model : Option GenerativeModel
  questions_collection : Option Collection
  now : Nat

/-- One observable step of a dispatch, in program order. -/
inductive Event
  | emit (payload : String) (aud : Audience)
  | gatewayCall (prompt : String) (result : Option String)
  | append (record : QuestionRecord) (ok : Bool)
deriving DecidableEq

/-- Line 50 of the source. -/
def configNotice : String := "Error: Gemini is not configured."

/-- Line 65 of the source. -/
def genFailNotice : String := "Error: Failed to generate a response. Please try again."

/-- Line 82 of the source. -/
def saveFailNotice : String := "Error: Failed to save the question. Please try again."

/-- Line 90 of the source. -/
def genericNotice : String := "An error occurred while processing your request."

/-- The f-string of line 56. -/
def titlePromptFor (q : String) : String :=
  "Generate a concise title for this question: " ++ q

/-- The body of `handle_message` (lines 48–87) for a string payload.
All exceptions of the gateway calls and of the store insert are caught
by the inner `try` blocks of the source, so this function is total. -/
def handle_message_str (env : Env) (data : String) : List Event :=
  if pyStartswith data "/help" then
    match env.model with
    | none => [.emit configNotice .toSender]
    | some m =>
      let question := pyStrip (pySliceFrom data 5)
      match m.generate_content question with
      | none =>
          [.gatewayCall question none, .emit genFailNotice .toSender]
      | some response =>
        let title_prompt := titlePromptFor question
        match m.generate_content title_prompt with
        | none =>
            [.gatewayCall question (some response),
             .gatewayCall title_prompt none,
             .emit genFailNotice .toSender]
        | some title =>
          let head : List Event :=
            [.gatewayCall question (some response),
             .gatewayCall title_prompt (some title),
             .emit response .toSender]
          match env.questions_collection with
          | none => head ++ [.emit response .toAll]
          | some coll =>
            let question_data : QuestionRecord :=
              { question := question
                answer := response
                title := title
                timestamp := env.now
                likes := 0
                category := "AI Response"
                author := "Anonymous User" }
            if coll.insert_succeeds then
              head ++ [.append question_data true, .emit response .toAll]
            else
              head ++ [.append question_data false, .emit saveFailNotice .toSender]
  else
    [.emit data .toAll]

/-- A SocketIO message payload: a Python string, or any other JSON value
(on which `data.startswith` raises `AttributeError`). -/
inductive PyData
  | pyStr (s : String)
  | pyOther

/-- The guarded body of `handle_message`: `Except.error t` means the body
raised after producing the trace `t` (a non-string payload raises at
`data.startswith`, before any effect); `Except.ok t` means it returned
normally with trace `t`. -/
def handle_message_try (env : Env) (data : PyData) : Except (List Event) (List Event) :=
  match data with
  | .pyStr s => .ok (handle_message_str env s)
  | .pyOther => .error []

/-- `handle_message` with its outermost `try`/`except` (lines 47–90):
an error escaping the body is converted into the generic notice sent to
the sender. -/
def handle_message (env : Env) (data : PyData) : List Event :=
  match handle_message_try env data with
  | .ok t => t
  | .error t => t ++ [.emit genericNotice .toSender]

/-- The emits of a trace, in order. -/
def emitsOf (t : List Event) : List (String × Audience) :=
  t.filterMap fun e =>
    match e with
    | .emit p a => some (p, a)
    | _ => none

/-- Payloads broadcast to every session, in order. -/
def broadcastsOf (t : List Event) : List String :=
  t.filterMap fun e =>
    match e with
    | .emit p .toAll => some p
    | _ => none

/-- Payloads sent to the sender only, in order. -/
def senderEmitsOf (t : List Event) : List String :=
  t.filterMap fun e =>
    match e with
    | .emit p .toSender => some p
    | _ => none

/-- Prompts passed to `model.generate_content`, in order. -/
def callsOf (t : List Event) : List String :=
  t.filterMap fun e =>
    match e with
    | .gatewayCall p _ => some p
    | _ => none

/-- Records passed to `questions_collection.insert_one`, in order. -/
def appendsOf (t : List Event) : List QuestionRecord :=
  t.filterMap fun e =>
    match e with
    | .append r _ => some r
    | _ => none

/-! ### Path lemmas: the trace of each control-flow path of the dispatcher -/

/-- Line 87: a payload that does not start with `/help` is broadcast as-is. -/
lemma handle_message_str_chat (env : Env) (s : String)
    (hs : pyStartswith s "/help" = false) :
    handle_message_str env s = [.emit s .toAll] := by
  simp [handle_message_str, hs]

/-- Lines 49–51: command with no configured model. -/
lemma handle_message_str_no_model (env : Env) (s : String)
    (hs : pyStartswith s "/help" = true) (hm : env.model = none) :
    handle_message_str env s = [.emit configNotice .toSender] := by
  simp [handle_message_str, hs, hm]

/-- Lines 54–66: the answer-generation call raises. -/
lemma handle_message_str_answer_fails (env : Env) (m : GenerativeModel) (s : String)
    (hs : pyStartswith s "/help" = true) (hm : env.model = some m)
    (ha : m.generate_content (pyStrip (pySliceFrom s 5)) = none) :
    handle_message_str env s =
      [.gatewayCall (pyStrip (pySliceFrom s 5)) none,
       .emit genFailNotice .toSender] := by
  simp [handle_message_str, hs, hm, ha]

/-- Lines 54–66: the answer is obtained but the title-generation call raises. -/
lemma handle_message_str_title_fails (env : Env) (m : GenerativeModel)
    (s ans : String)
    (hs : pyStartswith s "/help" = true) (hm : env.model = some m)
    (ha : m.generate_content (pyStrip (pySliceFrom s 5)) = some ans)
    (ht : m.generate_content (titlePromptFor (pyStrip (pySliceFrom s 5))) = none) :
    handle_message_str env s =
      [.gatewayCall (pyStrip (pySliceFrom s 5)) (some ans),
       .gatewayCall (titlePromptFor (pyStrip (pySliceFrom s 5))) none,
       .emit genFailNotice .toSender] := by
  simp [handle_message_str, hs, hm, ha, ht]

/-- Lines 54–85: both gateway calls succeed and the collection is absent —
the record construction and insert are skipped entirely. -/
lemma handle_message_str_no_store (env : Env) (m : GenerativeModel)
    (s ans ttl : String)
    (hs : pyStartswith s "/help" = true) (hm : env.model = some m)
    (hc : env.questions_collection = none)
    (ha : m.generate_content (pyStrip (pySliceFrom s 5)) = some ans)
    (ht : m.generate_content (titlePromptFor (pyStrip (pySliceFrom s 5))) = some ttl) :
    handle_message_str env s =
      [.gatewayCall (pyStrip (pySliceFrom s 5)) (some ans),
       .gatewayCall (titlePromptFor (pyStrip (pySliceFrom s 5))) (some ttl),
       .emit ans .toSender,
       .emit ans .toAll] := by
  simp [handle_message_str, hs, hm, hc, ha, ht]

/-- Lines 54–85: both gateway calls succeed and the collection is present —
the record is built and inserted, then the outcome of the insert decides
between the broadcast and the save-failure notice. -/
lemma handle_message_str_success (env : Env) (m : GenerativeModel)
    (coll : Collection) (s ans ttl : String)
    (hs : pyStartswith s "/help" = true) (hm : env.model = some m)
    (hc : env.questions_collection = some coll)
    (ha : m.generate_content (pyStrip (pySliceFrom s 5)) = some ans)
    (ht : m.generate_content (titlePromptFor (pyStrip (pySliceFrom s 5))) = some ttl) :
    handle_message_str env s =
      [.gatewayCall (pyStrip (pySliceFrom s 5)) (some ans),
       .gatewayCall (titlePromptFor (pyStrip (pySliceFrom s 5))) (some ttl),
       .emit ans .toSender,
       .append ⟨pyStrip (pySliceFrom s 5), ans, ttl, env.now, 0,
                "AI Response", "Anonymous User"⟩ coll.insert_succeeds] ++
      (if coll.insert_succeeds then [.emit ans .toAll]
       else [.emit saveFailNotice .toSender]) := by
  cases hins : coll.insert_succeeds <;>
    simp [handle_message_str, hs, hm, hc, ha, ht, hins]

/-- Unwrapping the outer guard on a string payload. -/
lemma handle_message_pyStr (env : Env) (s : String) :
    handle_message env (.pyStr s) = handle_message_str env s := rfl

/-! ### Test doubles for concrete runs -/

/-- A model whose every call succeeds with the text `"A"`. -/
def answerBot : GenerativeModel := ⟨fun _ => some "A"⟩

/-- A model whose every call raises. -/
def failBot : GenerativeModel := ⟨fun _ => none⟩

/-- A model that answers the query `"q"` with `"A"` and raises on every
other prompt (in particular on the title prompt). -/
def titleFailBot : GenerativeModel :=
  ⟨fun p => if p = "q" then some "A" else none⟩

/-- Fully configured environment with a succeeding model and store. -/
def okEnv : Env := ⟨some answerBot, some ⟨true⟩, 7⟩

/-- Environment whose model raises on every call. -/
def failEnv : Env := ⟨some failBot, some ⟨true⟩, 7⟩

/-- Environment with no configured model (`model is None`). -/
def noModelEnv : Env := ⟨none, some ⟨true⟩, 7⟩

/-- Environment where the insert into Mongo raises. -/
def badStoreEnv : Env := ⟨some answerBot, some ⟨false⟩, 7⟩

/-- Environment where the title-generation call raises. -/
def titleFailEnv : Env := ⟨some titleFailBot, some ⟨true⟩, 7⟩

/-! ### Claims -/

/-- Claim C1: for the inbound message `"/help what is glaucoma"` with a
configured model, a connected store, and both gateway calls and the
insert succeeding, exactly one record is passed to
`questions_collection.insert_one`, its `question` field is
`"what is glaucoma"`, and exactly one broadcast to every session is made,
whose payload is the generated answer. -/
theorem c1_glaucoma_append_and_broadcast (env : Env) (m : GenerativeModel)
    (coll : Collection) (ans ttl : String)
    (hm : env.model = some m)
    (hc : env.questions_collection = some coll)
    (hok : coll.insert_succeeds = true)
    (ha : m.generate_content "what is glaucoma" = some ans)
    (ht : m.generate_content (titlePromptFor "what is glaucoma") = some ttl) :
    (appendsOf (handle_message env (.pyStr "/help what is glaucoma"))).map
        QuestionRecord.question = ["what is glaucoma"] ∧
    broadcastsOf (handle_message env (.pyStr "/help what is glaucoma")) = [ans] := by
  have hq : pyStrip (pySliceFrom "/help what is glaucoma" 5) = "what is glaucoma" := by
    decide
  have hs : pyStartswith "/help what is glaucoma" "/help" = true := by decide
  rw [handle_message_pyStr,
    handle_message_str_success env m coll _ ans ttl hs hm hc
      (by rw [hq]; exact ha) (by rw [hq]; exact ht)]
  simp [hok, appendsOf, broadcastsOf, hq]

/-- Concrete run for C1: the fully succeeding environment on
`"/help what is glaucoma"`. -/
theorem c1_glaucoma_append_and_broadcast_witness :
    (appendsOf (handle_message okEnv (.pyStr "/help what is glaucoma"))).map
        QuestionRecord.question = ["what is glaucoma"] ∧
    broadcastsOf (handle_message okEnv (.pyStr "/help what is glaucoma")) = ["A"] :=
  c1_glaucoma_append_and_broadcast okEnv answerBot ⟨true⟩ "A" "A" rfl rfl rfl rfl rfl

/-- Claim C3: when the answer-generation call raises, the dispatcher
emits the fixed generation-failure notice to the sender exactly once and
stops: only one gateway call was made (the answer one — title generation
is never attempted), no record is appended, and nothing is broadcast. -/
theorem c3_answer_failure_aborts (env : Env) (m : GenerativeModel) (s : String)
    (hs : pyStartswith s "/help" = true)
    (hm : env.model = some m)
    (ha : m.generate_content (pyStrip (pySliceFrom s 5)) = none) :
    emitsOf (handle_message env (.pyStr s)) = [(genFailNotice, .toSender)] ∧
    callsOf (handle_message env (.pyStr s)) = [pyStrip (pySliceFrom s 5)] ∧
    appendsOf (handle_message env (.pyStr s)) = [] ∧
    broadcastsOf (handle_message env (.pyStr s)) = [] := by
  rw [handle_message_pyStr, handle_message_str_answer_fails env m s hs hm ha]
  simp [emitsOf, callsOf, appendsOf, broadcastsOf]

/-- Concrete run for C3: the raising model on `"/help q"`. -/
theorem c3_answer_failure_aborts_witness :
    emitsOf (handle_message failEnv (.pyStr "/help q")) = [(genFailNotice, .toSender)] ∧
    callsOf (handle_message failEnv (.pyStr "/help q")) = [pyStrip (pySliceFrom "/help q" 5)] ∧
    appendsOf (handle_message failEnv (.pyStr "/help q")) = [] ∧
    broadcastsOf (handle_message failEnv (.pyStr "/help q")) = [] :=
  c3_answer_failure_aborts failEnv failBot "/help q" (by decide) rfl rfl

/-- Claim C4: when no model is configured, a command gets the fixed
configuration-error notice sent to the sender exactly once, and no
broadcast, no append and no gateway call happen. -/
theorem c4_unconfigured_notice (env : Env) (s : String)
    (hs : pyStartswith s "/help" = true)
    (hm : env.model = none) :
    emitsOf (handle_message env (.pyStr s)) = [(configNotice, .toSender)] ∧
    broadcastsOf (handle_message env (.pyStr s)) = [] ∧
    appendsOf (handle_message env (.pyStr s)) = [] ∧
    callsOf (handle_message env (.pyStr s)) = [] := by
  rw [handle_message_pyStr, handle_message_str_no_model env s hs hm]
  simp [emitsOf, callsOf, appendsOf, broadcastsOf]

/-- Concrete run for C4: no model, message `"/help q"`. -/
theorem c4_unconfigured_notice_witness :
    emitsOf (handle_message noModelEnv (.pyStr "/help q")) = [(configNotice, .toSender)] ∧
    broadcastsOf (handle_message noModelEnv (.pyStr "/help q")) = [] ∧
    appendsOf (handle_message noModelEnv (.pyStr "/help q")) = [] ∧
    callsOf (handle_message noModelEnv (.pyStr "/help q")) = [] :=
  c4_unconfigured_notice noModelEnv "/help q" (by decide) rfl

/-- Claim C5: a message that does not start with `/help` is broadcast
unchanged to every session (sender included), with no gateway call and
no store write. -/
theorem c5_chat_relay (env : Env) (s : String)
    (hs : pyStartswith s "/help" = false) :
    emitsOf (handle_message env (.pyStr s)) = [(s, .toAll)] ∧
    callsOf (handle_message env (.pyStr s)) = [] ∧
    appendsOf (handle_message env (.pyStr s)) = [] := by
  rw [handle_message_pyStr, handle_message_str_chat env s hs]
  simp [emitsOf, callsOf, appendsOf]

/-- Concrete run for C5: plain chat `"hello"` in the configured
environment. -/
theorem c5_chat_relay_witness :
    emitsOf (handle_message okEnv (.pyStr "hello")) = [("hello", .toAll)] ∧
    callsOf (handle_message okEnv (.pyStr "hello")) = [] ∧
    appendsOf (handle_message okEnv (.pyStr "hello")) = [] :=
  c5_chat_relay okEnv "hello" (by decide)

/-- Claim C7: when a command is successfully answered (both gateway
calls succeed) and the collection is connected, exactly one record is
passed to the store, its fields are the trimmed query, the answer, the
title, the current time, `likes = 0`, `category = "AI Response"`,
`author = "Anonymous User"`, and it is passed only after both gateway
calls returned (it sits after them in the trace). -/
theorem c7_record_created_once (env : Env) (m : GenerativeModel)
    (coll : Collection) (s ans ttl : String)
    (hs : pyStartswith s "/help" = true)
    (hm : env.model = some m)
    (hc : env.questions_collection = some coll)
    (ha : m.generate_content (pyStrip (pySliceFrom s 5)) = some ans)
    (ht : m.generate_content (titlePromptFor (pyStrip (pySliceFrom s 5))) = some ttl) :
    appendsOf (handle_message env (.pyStr s)) =
      [⟨pyStrip (pySliceFrom s 5), ans, ttl, env.now, 0,
        "AI Response", "Anonymous User"⟩] ∧
    ∃ tail, handle_message env (.pyStr s) =
      [.gatewayCall (pyStrip (pySliceFrom s 5)) (some ans),
       .gatewayCall (titlePromptFor (pyStrip (pySliceFrom s 5))) (some ttl),
       .emit ans .toSender,
       .append ⟨pyStrip (pySliceFrom s 5), ans, ttl, env.now, 0,
                "AI Response", "Anonymous User"⟩ coll.insert_succeeds] ++ tail := by
  rw [handle_message_pyStr,
    handle_message_str_success env m coll s ans ttl hs hm hc ha ht]
  constructor
  · cases hins : coll.insert_succeeds <;> simp [appendsOf, hins]
  · exact ⟨_, rfl⟩

/-- Concrete run for C7: the fully succeeding environment on `"/help q"`. -/
theorem c7_record_created_once_witness :
    appendsOf (handle_message okEnv (.pyStr "/help q")) =
      [⟨pyStrip (pySliceFrom "/help q" 5), "A", "A", okEnv.now, 0,
        "AI Response", "Anonymous User"⟩] ∧
    ∃ tail, handle_message okEnv (.pyStr "/help q") =
      [.gatewayCall (pyStrip (pySliceFrom "/help q" 5)) (some "A"),
       .gatewayCall (titlePromptFor (pyStrip (pySliceFrom "/help q" 5))) (some "A"),
       .emit "A" .toSender,
       .append ⟨pyStrip (pySliceFrom "/help q" 5), "A", "A", okEnv.now, 0,
                "AI Response", "Anonymous User"⟩ (Collection.insert_succeeds ⟨true⟩)] ++ tail :=
  c7_record_created_once okEnv answerBot ⟨true⟩ "/help q" "A" "A"
    (by decide) rfl rfl rfl rfl

/-- Claim C9: when the answer is generated but the insert into the
collection raises, the sender gets the fixed save-failure notice (sent
to the sender only), nothing is broadcast, and the insert was attempted
exactly once: the code implements the notify-sender-and-abort policy. -/
theorem c9_store_failure_aborts_broadcast (env : Env) (m : GenerativeModel)
    (coll : Collection) (s ans ttl : String)
    (hs : pyStartswith s "/help" = true)
    (hm : env.model = some m)
    (hc : env.questions_collection = some coll)
    (hbad : coll.insert_succeeds = false)
    (ha : m.generate_content (pyStrip (pySliceFrom s 5)) = some ans)
    (ht : m.generate_content (titlePromptFor (pyStrip (pySliceFrom s 5))) = some ttl) :
    emitsOf (handle_message env (.pyStr s)) =
      [(ans, .toSender), (saveFailNotice, .toSender)] ∧
    broadcastsOf (handle_message env (.pyStr s)) = [] ∧
    (appendsOf (handle_message env (.pyStr s))).length = 1 := by
  rw [handle_message_pyStr,
    handle_message_str_success env m coll s ans ttl hs hm hc ha ht, hbad]
  simp [emitsOf, broadcastsOf, appendsOf]

/-- Concrete run for C9: environment whose insert raises, on `"/help q"`. -/
theorem c9_store_failure_aborts_broadcast_witness :
    emitsOf (handle_message badStoreEnv (.pyStr "/help q")) =
      [("A", .toSender), (saveFailNotice, .toSender)] ∧
    broadcastsOf (handle_message badStoreEnv (.pyStr "/help q")) = [] ∧
    (appendsOf (handle_message badStoreEnv (.pyStr "/help q"))).length = 1 :=
  c9_store_failure_aborts_broadcast badStoreEnv answerBot ⟨false⟩ "/help q" "A" "A"
    (by decide) rfl rfl rfl rfl rfl

/-- Counterexample to claim C10 as stated: with a model that answers the
query `"q"` but raises on the title prompt, the run emits only the
generation-failure notice — the sender does **not** receive the answer
`"A"` by a unicast, because line 62 of the source (the answer unicast)
comes after the title call and is skipped when that call raises. -/
theorem c10_counterexample :
    titleFailBot.generate_content "q" = some "A" ∧
    titleFailBot.generate_content (titlePromptFor "q") = none ∧
    emitsOf (handle_message titleFailEnv (.pyStr "/help q")) =
      [(genFailNotice, .toSender)] ∧
    ("A", Audience.toSender) ∉ emitsOf (handle_message titleFailEnv (.pyStr "/help q")) := by
  decide

/-- Claim C10 (amended): when the answer is generated but the title call
raises, the already-obtained answer is discarded — the sender receives
only the fixed generation-failure notice, no record is appended, nothing
is broadcast, and the sender does not receive the answer either (the
answer unicast comes after the title call, so it never happens); both
gateway calls were made, in order. -/
theorem c10_title_failure_discards_answer (env : Env) (m : GenerativeModel)
    (s ans : String)
    (hs : pyStartswith s "/help" = true)
    (hm : env.model = some m)
    (ha : m.generate_content (pyStrip (pySliceFrom s 5)) = some ans)
    (ht : m.generate_content (titlePromptFor (pyStrip (pySliceFrom s 5))) = none) :
    emitsOf (handle_message env (.pyStr s)) = [(genFailNotice, .toSender)] ∧
    appendsOf (handle_message env (.pyStr s)) = [] ∧
    broadcastsOf (handle_message env (.pyStr s)) = [] ∧
    callsOf (handle_message env (.pyStr s)) =
      [pyStrip (pySliceFrom s 5), titlePromptFor (pyStrip (pySliceFrom s 5))] := by
  rw [handle_message_pyStr, handle_message_str_title_fails env m s ans hs hm ha ht]
  simp [emitsOf, appendsOf, broadcastsOf, callsOf]

/-- Concrete run for C10 (amended): the title-failing environment on
`"/help q"`. -/
theorem c10_title_failure_discards_answer_witness :
    emitsOf (handle_message titleFailEnv (.pyStr "/help q")) =
      [(genFailNotice, .toSender)] ∧
    appendsOf (handle_message titleFailEnv (.pyStr "/help q")) = [] ∧
    broadcastsOf (handle_message titleFailEnv (.pyStr "/help q")) = [] ∧
    callsOf (handle_message titleFailEnv (.pyStr "/help q")) =
      [pyStrip (pySliceFrom "/help q" 5),
       titlePromptFor (pyStrip (pySliceFrom "/help q" 5))] :=
  c10_title_failure_discards_answer titleFailEnv titleFailBot "/help q" "A"
    (by decide) rfl (by decide) (by decide)

/-! ### String facts for the whitespace-query claim -/

lemma isPrefixOf_append_self (l t : List Char) : l.isPrefixOf (l ++ t) = true := by
  induction l with
  | nil => simp [List.isPrefixOf]
  | cons x xs ih => simp [List.isPrefixOf, ih]

lemma dropWhile_eq_nil_of_all (p : Char → Bool) (l : List Char)
    (h : ∀ c ∈ l, p c = true) : l.dropWhile p = [] := by
  induction l with
  | nil => rfl
  | cons x xs ih =>
    rw [List.dropWhile_cons, h x (List.mem_cons_self x xs)]
    exact if_pos rfl ▸ ih fun c hc => h c (List.mem_cons_of_mem x hc)

/-- `strip` of an all-whitespace string is empty. -/
lemma pyStrip_all_space (w : String) (h : ∀ c ∈ w.data, pyIsSpace c = true) :
    pyStrip w = "" := by
  unfold pyStrip
  rw [dropWhile_eq_nil_of_all pyIsSpace w.data h]
  rfl

/-- Python `("/help" + w)[5:] = w`. -/
lemma pySliceFrom_help_append (w : String) : pySliceFrom ("/help" ++ w) 5 = w := by
  unfold pySliceFrom
  rw [String.data_append]
  rw [show (5 : Nat) = ("/help".data).length from rfl, List.drop_left]

/-- Python `("/help" + w).startswith("/help")` for any `w`. -/
lemma pyStartswith_help_append (w : String) :
    pyStartswith ("/help" ++ w) "/help" = true := by
  unfold pyStartswith
  rw [String.data_append]
  exact isPrefixOf_append_self _ _

/-- Claim C8: for a command whose text after `/help` is all whitespace,
the trimmed query is the empty string, the command path is still taken
(the text starts with the marker), and with a configured model the first
gateway call — the answer-generation call — receives the empty string
as-is. -/
theorem c8_whitespace_query (env : Env) (m : GenerativeModel) (w : String)
    (hm : env.model = some m)
    (hw : ∀ c ∈ w.data, pyIsSpace c = true) :
    pyStrip (pySliceFrom ("/help" ++ w) 5) = "" ∧
    pyStartswith ("/help" ++ w) "/help" = true ∧
    (callsOf (handle_message env (.pyStr ("/help" ++ w)))).head? = some "" := by
  have hq : pyStrip (pySliceFrom ("/help" ++ w) 5) = "" := by
    rw [pySliceFrom_help_append]; exact pyStrip_all_space w hw
  have hs := pyStartswith_help_append w
  refine ⟨hq, hs, ?_⟩
  rw [handle_message_pyStr]
  cases ha : m.generate_content (pyStrip (pySliceFrom ("/help" ++ w) 5)) with
  | none =>
    rw [handle_message_str_answer_fails env m _ hs hm ha]
    simp [callsOf, hq]
  | some resp =>
    cases ht : m.generate_content (titlePromptFor (pyStrip (pySliceFrom ("/help" ++ w) 5))) with
    | none =>
      rw [handle_message_str_title_fails env m _ resp hs hm ha ht]
      simp [callsOf, hq]
    | some ttl =>
      cases hc : env.questions_collection with
      | none =>
        rw [handle_message_str_no_store env m _ resp ttl hs hm hc ha ht]
        simp [callsOf, hq]
      | some coll =>
        rw [handle_message_str_success env m coll _ resp ttl hs hm hc ha ht]
        simp [callsOf, hq]

/-- Concrete run for C8: `"/help"` followed by three spaces, in the
configured environment. -/
theorem c8_whitespace_query_witness :
    pyStrip (pySliceFrom ("/help" ++ "   ") 5) = "" ∧
    pyStartswith ("/help" ++ "   ") "/help" = true ∧
    (callsOf (handle_message okEnv (.pyStr ("/help" ++ "   ")))).head? = some "" :=
  c8_whitespace_query okEnv answerBot "   " rfl (by decide)

/-- Counterexample to claim C2 as stated: on a fully successful run of
`"/help q"` (the answer `"A"` is broadcast to everyone), the answer is
**also** sent to the sender by a sender-only unicast (line 62 of the
source), and `"A"` is none of the fixed error notices — so a sender-only
unicast does occur outside the error paths. -/
theorem c2_counterexample :
    broadcastsOf (handle_message okEnv (.pyStr "/help q")) = ["A"] ∧
    ("A", Audience.toSender) ∈ emitsOf (handle_message okEnv (.pyStr "/help q")) ∧
    "A" ≠ configNotice ∧ "A" ≠ genFailNotice ∧
    "A" ≠ saveFailNotice ∧ "A" ≠ genericNotice := by
  decide

/-- Claim C2 (amended): every sender-only unicast carries one of the
four fixed error notices **or** the generated answer of the message's
query — the latter is the success-path unicast of line 62; and on the
full-success command path the sender receives the answer twice: once by
that sender-only unicast and once by the broadcast to everyone. -/
theorem c2_sender_unicast_characterisation (env : Env) (data : PyData) :
    (∀ p, (p, Audience.toSender) ∈ emitsOf (handle_message env data) →
      p = configNotice ∨ p = genFailNotice ∨ p = saveFailNotice ∨ p = genericNotice ∨
      ∃ m s, data = .pyStr s ∧ env.model = some m ∧
        m.generate_content (pyStrip (pySliceFrom s 5)) = some p) ∧
    (∀ m coll s ans ttl, data = .pyStr s → env.model = some m →
      env.questions_collection = some coll → coll.insert_succeeds = true →
      pyStartswith s "/help" = true →
      m.generate_content (pyStrip (pySliceFrom s 5)) = some ans →
      m.generate_content (titlePromptFor (pyStrip (pySliceFrom s 5))) = some ttl →
      senderEmitsOf (handle_message env data) = [ans] ∧
      broadcastsOf (handle_message env data) = [ans]) := by
  constructor
  · intro p hp
    cases data with
    | pyOther =>
      simp [handle_message, handle_message_try, emitsOf] at hp
      exact Or.inr (Or.inr (Or.inr (Or.inl hp)))
    | pyStr s =>
      rw [handle_message_pyStr] at hp
      by_cases hs : pyStartswith s "/help" = true
      · cases hm : env.model with
        | none =>
          rw [handle_message_str_no_model env s hs hm] at hp
          simp [emitsOf] at hp
          exact Or.inl hp
        | some m =>
          cases ha : m.generate_content (pyStrip (pySliceFrom s 5)) with
          | none =>
            rw [handle_message_str_answer_fails env m s hs hm ha] at hp
            simp [emitsOf] at hp
            exact Or.inr (Or.inl hp)
          | some resp =>
            cases ht : m.generate_content (titlePromptFor (pyStrip (pySliceFrom s 5))) with
            | none =>
              rw [handle_message_str_title_fails env m s resp hs hm ha ht] at hp
              simp [emitsOf] at hp
              exact Or.inr (Or.inl hp)
            | some ttl =>
              cases hc : env.questions_collection with
              | none =>
                rw [handle_message_str_no_store env m s resp ttl hs hm hc ha ht] at hp
                simp [emitsOf] at hp
                exact Or.inr (Or.inr (Or.inr (Or.inr
                  ⟨m, s, rfl, rfl, by rw [hp]; exact ha⟩)))
              | some coll =>
                rw [handle_message_str_success env m coll s resp ttl hs hm hc ha ht] at hp
                cases hins : coll.insert_succeeds with
                | true =>
                  rw [hins] at hp
                  simp [emitsOf] at hp
                  exact Or.inr (Or.inr (Or.inr (Or.inr
                    ⟨m, s, rfl, rfl, by rw [hp]; exact ha⟩)))
                | false =>
                  rw [hins] at hp
                  simp [emitsOf] at hp
                  rcases hp with hp | hp
                  · exact Or.inr (Or.inr (Or.inr (Or.inr
                      ⟨m, s, rfl, rfl, by rw [hp]; exact ha⟩)))
                  · exact Or.inr (Or.inr (Or.inl hp))
      · rw [handle_message_str_chat env s (by simpa using hs)] at hp
        simp [emitsOf] at hp
  · intro m coll s ans ttl hd hm hc hok hs ha ht
    subst hd
    rw [handle_message_pyStr,
      handle_message_str_success env m coll s ans ttl hs hm hc ha ht, hok]
    simp [senderEmitsOf, broadcastsOf]

/-- Concrete run for C2 (amended): both parts instantiated on the fully
succeeding environment and `"/help q"`. -/
theorem c2_sender_unicast_characterisation_witness :
    ("A" = configNotice ∨ "A" = genFailNotice ∨ "A" = saveFailNotice ∨
      "A" = genericNotice ∨
      ∃ m s, PyData.pyStr "/help q" = PyData.pyStr s ∧ okEnv.model = some m ∧
        m.generate_content (pyStrip (pySliceFrom s 5)) = some "A") ∧
    senderEmitsOf (handle_message okEnv (.pyStr "/help q")) = ["A"] ∧
    broadcastsOf (handle_message okEnv (.pyStr "/help q")) = ["A"] :=
  ⟨(c2_sender_unicast_characterisation okEnv (.pyStr "/help q")).1 "A" (by decide),
   (c2_sender_unicast_characterisation okEnv (.pyStr "/help q")).2 answerBot ⟨true⟩
     "/help q" "A" "A" rfl rfl rfl rfl (by decide) rfl rfl⟩

/-- Claim C6: no error escapes `handle_message`: an error that reaches
the outermost guard is converted into the generic processing-error
notice appended to the trace and sent to the sender only, and for a
string payload the body never lets an error reach that guard (gateway
and store errors are handled by the inner handlers); a non-string
payload (which raises at `data.startswith`) yields exactly the generic
notice. -/
theorem c6_no_escape (env : Env) (data : PyData) :
    (∀ t, handle_message_try env data = .error t →
      handle_message env data = t ++ [.emit genericNotice .toSender]) ∧
    (∀ s, data = .pyStr s →
      handle_message_try env data = .ok (handle_message_str env s)) ∧
    (data = .pyOther →
      emitsOf (handle_message env data) = [(genericNotice, .toSender)]) := by
  refine ⟨?_, ?_, ?_⟩
  · intro t h
    cases data with
    | pyStr s => simp [handle_message_try] at h
    | pyOther =>
      simp [handle_message_try] at h
      subst h
      rfl
  · intro s h
    subst h
    rfl
  · intro h
    subst h
    rfl

/-- Concrete runs for C6: the non-string payload is degraded to the
generic notice, and a string payload never reaches the outer guard. -/
theorem c6_no_escape_witness :
    handle_message okEnv PyData.pyOther = [] ++ [.emit genericNotice .toSender] ∧
    handle_message_try okEnv (.pyStr "hello") = .ok (handle_message_str okEnv "hello") ∧
    emitsOf (handle_message okEnv PyData.pyOther) = [(genericNotice, .toSender)] :=
  ⟨(c6_no_escape okEnv PyData.pyOther).1 [] rfl,
   (c6_no_escape okEnv (.pyStr "hello")).2.1 "hello" rfl,
   (c6_no_escape okEnv PyData.pyOther).2.2 rfl⟩

end Vista
